import Mathlib

/-!
Verification development for the FilePrepper repository.

The repository holds one Python script,
`examples/Preprocessor006/preprocess_dataset_006.py`, a batch driver that
shells out to the external FilePrepper CLI to resample press sensor data.
This file embeds the script shallowly: the external world (filesystem and
subprocess) is an abstract environment `Env`, the script's observable
actions are an effect trace, Python's exception on integer/float division
by zero is an `Except` error, and Python float division of integers is
modelled exactly over `ℚ`.

The time-series resampling engine specified as the CORE of the spec lives
in the external CLI, not in this repository's sources; it is modelled from
the spec in the second half of the file.
-/

/-- Result of running an external process, as observed by the script via
`subprocess.run(..., capture_output=True, text=True)`: an exit status,
captured stdout and captured stderr. -/
structure ProcResult where
  exitCode : Int
  stdout : String
  stderr : String

/-- The abstract environment the script runs against: which paths exist
(`Path.exists`), the lines of each file (what iterating `open(f)` yields),
and the behaviour of `subprocess.run` on a full argument vector. -/
structure Env where
  pathExists : String → Bool
  fileLines : String → List String
  exec : List String → ProcResult

/-- Configuration constant `FILEPREPPER_CLI` from the script. -/
def FILEPREPPER_CLI : String :=
  "D:/data/FilePrepper/src/FilePrepper.CLI/bin/Release/net9.0/fileprepper.exe"

/-- Configuration constant `INPUT_DIR` from the script. -/
def INPUT_DIR : String :=
  "D:/data/MLoop/ML-Resource/003-소성가공 자원최적화/Dataset/data"

/-- Configuration constant `OUTPUT_DIR` from the script. -/
def OUTPUT_DIR : String :=
  "D:/data/MLoop/ML-Resource/003-소성가공 자원최적화/mloop-project/processed-data"

/-- `INPUT_DIR / f"프레스 {press_num}호-유압모터 전류데이터.csv"` -/
def inputFile (n : Nat) : String :=
  INPUT_DIR ++ "/" ++ ("프레스 " ++ toString n ++ "호-유압모터 전류데이터.csv")

/-- `OUTPUT_DIR / f"press{press_num}_5min.csv"` -/
def outputFile (n : Nat) : String :=
  OUTPUT_DIR ++ "/" ++ ("press" ++ toString n ++ "_5min.csv")

/-- The argument list the script passes to `run_fileprepper` for press `n`
(lines 62-72 of the script). -/
def windowCommand (n : Nat) : List String :=
  ["window",
   "-i", inputFile n,
   "-o", outputFile n,
   "--type", "resample",
   "--method", "mean",
   "--columns", "RMS[A]",
   "--time-column", "Time_s[s]",
   "--window", "5T",
   "--header"]

/-- `run_fileprepper`: runs `[str(FILEPREPPER_CLI)] + command` with
`check=True`; a zero exit yields `(True, stdout)`, a nonzero exit raises
`CalledProcessError` which is caught and turned into `(False, stderr)`. -/
def run_fileprepper (env : Env) (command : List String) : Bool × String :=
  let result := env.exec ([FILEPREPPER_CLI] ++ command)
  if result.exitCode = 0 then (true, result.stdout) else (false, result.stderr)

/-- `sum(1 for _ in open(f))`: the number of lines of the file. -/
def countLines (lines : List String) : Nat :=
  (lines.map (fun _ => 1)).sum

/-- Python exceptions that the script does not catch. -/
inductive PyErr
  | zeroDivisionError
deriving DecidableEq

/-- Python's true division `a / b` on exact numbers: raises
`ZeroDivisionError` when `b = 0`. -/
def pyTrueDiv (a b : ℚ) : Except PyErr ℚ :=
  if b = 0 then .error .zeroDivisionError else .ok (a / b)

/-- Observable side effects of the script on the outside world. -/
inductive Effect
  | mkdirOutput
  | execCLI (argv : List String)
deriving DecidableEq

/-- What the loop body reports for one press. -/
inductive Outcome
  | skipped
  | processed (inputRows outputRows : Nat) (reduction : ℚ)
  | failed (errMsg : String)
deriving DecidableEq

/-- The loop body of `preprocess_press_data` for one press number: skip if
the input file is missing; otherwise invoke the CLI once; on success count
lines of both files and compute
`((input_rows - output_rows) * 100) / input_rows` (which raises
`ZeroDivisionError` when the input file has zero lines); on failure report
the captured stderr. Returns the effect trace paired with the outcome or
uncaught exception. -/
def processPress (env : Env) (n : Nat) : List Effect × Except PyErr Outcome :=
  if env.pathExists (inputFile n) then
    let (success, output) := run_fileprepper env (windowCommand n)
    let trace := [Effect.execCLI ([FILEPREPPER_CLI] ++ windowCommand n)]
    if success then
      let input_rows := countLines (env.fileLines (inputFile n))
      let output_rows := countLines (env.fileLines (outputFile n))
      match pyTrueDiv (((input_rows : ℚ) - (output_rows : ℚ)) * 100) (input_rows : ℚ) with
      | .ok reduction => (trace, .ok (.processed input_rows output_rows reduction))
      | .error e => (trace, .error e)
    else
      (trace, .ok (.failed output))
  else
    ([], .ok .skipped)

/-- Sequential processing of a list of press numbers; an uncaught Python
exception in one body aborts the rest, anything else continues. -/
def runPresses (env : Env) : List Nat → List Effect × Except PyErr (List Outcome)
  | [] => ([], .ok [])
  | n :: rest =>
      let (tr, res) := processPress env n
      match res with
      | .error e => (tr, .error e)
      | .ok o =>
          let (tr2, res2) := runPresses env rest
          (tr ++ tr2, match res2 with
                      | .error e => .error e
                      | .ok os => .ok (o :: os))

/-- `range(1, 5)`: the press numbers iterated by the script. -/
def pressNums : List Nat := List.range' 1 4

/-- `preprocess_press_data`: creates the output directory, then processes
presses 1 through 4 in order. -/
def preprocess_press_data (env : Env) : List Effect × Except PyErr (List Outcome) :=
  let (tr, res) := runPresses env pressNums
  (Effect.mkdirOutput :: tr, res)

/-- How a run of the script as `__main__` ends. -/
inductive MainResult
  | exits (code : Int)
  | finished (res : Except PyErr (List Outcome))

/-- The `__main__` block: `sys.exit(1)` when the CLI executable or the
input directory is missing, otherwise run `preprocess_press_data`. -/
def main_script (env : Env) : List Effect × MainResult :=
  if env.pathExists FILEPREPPER_CLI = false then ([], .exits 1)
  else if env.pathExists INPUT_DIR = false then ([], .exits 1)
  else
    let (tr, res) := preprocess_press_data env
    (tr, .finished res)

/-- A concrete environment whose subprocess always succeeds with stdout "done". -/
def envOk : Env :=
  { pathExists := fun _ => true
    fileLines := fun _ => ["h", "1", "2"]
    exec := fun _ => ⟨0, "done", ""⟩ }

/-- A concrete environment whose subprocess always fails with stderr "boom". -/
def envFail : Env :=
  { pathExists := fun _ => true
    fileLines := fun _ => ["h", "1", "2"]
    exec := fun _ => ⟨2, "", "boom"⟩ }

/-- A concrete environment where no path exists. -/
def envNothing : Env :=
  { pathExists := fun _ => false
    fileLines := fun _ => []
    exec := fun _ => ⟨0, "", ""⟩ }

/-- A concrete environment whose subprocess succeeds but whose files are
all empty. -/
def envEmptyFiles : Env :=
  { pathExists := fun _ => true
    fileLines := fun _ => []
    exec := fun _ => ⟨0, "", ""⟩ }

/-!
The resampling engine.

Modelled from the spec: the engine the script drives (the `window`
command of the external FilePrepper CLI) is not part of this repository's
sources, so §2-§4 of the spec are embedded here directly. Timestamps are
numeric seconds (`Int`), values exact rationals; an unparsable value cell
is `none` and is skipped locally (§4.1); windows are half-open intervals
`[anchor + k*d, anchor + (k+1)*d)` of a fixed positive duration `d`
anchored at `anchor` (§3, §9 leaves the anchor choice open, so it is a
parameter); the empty-window policy is "emit a missing-value marker"
(§3, §8), so every window between the first and last populated window
yields a row.
-/

/-- Modelled from the spec: an Observation (§3) — a timestamp in numeric
seconds and, per selected value column, either a parsed numeric value or
`none` for an unparsable cell. -/
structure Observation where
  ts : Int
  vals : List (Option ℚ)
deriving DecidableEq

/-- Comparison of observations by timestamp, the sort key of §4.1 step 1. -/
def tsLE (a b : Observation) : Prop := a.ts ≤ b.ts

instance : DecidableRel tsLE := fun a b => inferInstanceAs (Decidable (a.ts ≤ b.ts))

instance : IsTotal Observation tsLE := ⟨fun a b => Int.le_total a.ts b.ts⟩

instance : IsTrans Observation tsLE := ⟨fun _ _ _ h1 h2 => le_trans h1 h2⟩

/-- Modelled from the spec: the stable sort by timestamp of §4.1 step 1
(insertion sort is stable: ties keep their input order). -/
def sortObs (series : List Observation) : List Observation :=
  List.insertionSort tsLE series

/-- Modelled from the spec: `floor((timestamp - anchor) / window_duration)`
(§4.1 step 2), as flooring integer division. -/
def windowIdx (anchor d t : Int) : Int := (t - anchor).fdiv d

/-- Modelled from the spec: the closed set of reduction strategies
`{mean, sum, min, max, count, first, last}` (§4.1). -/
inductive Reducer
  | mean
  | sum
  | min
  | max
  | count
  | first
  | last
deriving DecidableEq

/-- Minimum of a list of rationals, `none` on the empty list. -/
def listMin : List ℚ → Option ℚ
  | [] => none
  | x :: xs => some ((listMin xs).elim x (fun m => Min.min x m))

/-- Maximum of a list of rationals, `none` on the empty list. -/
def listMax : List ℚ → Option ℚ
  | [] => none
  | x :: xs => some ((listMax xs).elim x (fun m => Max.max x m))

/-- Modelled from the spec: apply a reducer to the values of one window in
one column (§4.1); a window with no contributing values yields the
empty-window marker `none` for that column (§3, §4.1 step 4). Mean
accumulates a sum and a count (§4.1, numeric semantics). -/
def reduceVals (r : Reducer) (xs : List ℚ) : Option ℚ :=
  match r with
  | .mean => if xs.isEmpty then none else some (xs.sum / (xs.length : ℚ))
  | .sum => if xs.isEmpty then none else some xs.sum
  | .min => listMin xs
  | .max => listMax xs
  | .count => if xs.isEmpty then none else some ((xs.length : ℚ))
  | .first => xs.head?
  | .last => xs.getLast?

/-- Modelled from the spec: the Window Bucket (§3) — the observations of
the sorted series whose timestamp falls in window `idx`; filtering the
sorted series preserves the sorted (hence original tie) order. -/
def bucket (sorted : List Observation) (d anchor idx : Int) : List Observation :=
  sorted.filter (fun o => windowIdx anchor d o.ts == idx)

/-- The parsed values a bucket contributes to column `c`; unparsable cells
(`none`) and missing cells are skipped locally (§4.1). -/
def colVals (b : List Observation) (c : Nat) : List ℚ :=
  b.filterMap (fun o => o.vals.getD c none)

/-- Modelled from the spec: an Aggregated Row (§3) — the window start
timestamp plus one aggregate per selected column. -/
structure AggRow where
  windowStart : Int
  values : List (Option ℚ)
deriving DecidableEq

/-- The aggregated row of window `idx` (§4.1 step 4). -/
def aggRow (sorted : List Observation) (d anchor idx : Int) (r : Reducer)
    (ncols : Nat) : AggRow :=
  { windowStart := anchor + idx * d
    values := (List.range ncols).map
      (fun c => reduceVals r (colVals (bucket sorted d anchor idx) c)) }

/-- The contiguous window indices `lo, lo+1, ..., hi` (§4.1 step 4). -/
def windowIndices (lo hi : Int) : List Int :=
  (List.range (hi - lo + 1).toNat).map (fun (i : Nat) => lo + (i : Int))

/-- Timestamp of the earliest observation (head of the sorted series). -/
def firstTs (series : List Observation) : Int :=
  (((sortObs series).map Observation.ts).head?).getD 0

/-- Timestamp of the latest observation (last of the sorted series). -/
def lastTs (series : List Observation) : Int :=
  (((sortObs series).map Observation.ts).getLast?).getD 0

/-- Window index of the first (earliest) observation. -/
def firstWinIdx (series : List Observation) (d anchor : Int) : Int :=
  windowIdx anchor d (firstTs series)

/-- Window index of the last (latest) observation. -/
def lastWinIdx (series : List Observation) (d anchor : Int) : Int :=
  windowIdx anchor d (lastTs series)

/-- Start time of the first observation's window. -/
def firstWindowStart (series : List Observation) (d anchor : Int) : Int :=
  anchor + firstWinIdx series d anchor * d

/-- Fatal errors of the engine (§7): a non-positive window duration is
`InvalidWindowError`; the spec requires a non-empty series (§4.1) without
naming the error, rendered here as `emptyInput`. -/
inductive EngineError
  | invalidWindow
  | emptyInput
deriving DecidableEq

/-- Modelled from the spec: `resample(series, window_duration, anchor,
reducer)` (§4.1) over `ncols` selected value columns. Validates the
window duration and non-emptiness, stable-sorts by timestamp, and emits
one aggregated row per window index in the contiguous range from the
first observation's window to the last observation's window, in ascending
window order, applying the empty-window marker policy per column. -/
def resample (series : List Observation) (d anchor : Int) (r : Reducer)
    (ncols : Nat) : Except EngineError (List AggRow) :=
  if d ≤ 0 then .error .invalidWindow
  else if series.isEmpty then .error .emptyInput
  else .ok ((windowIndices (firstWinIdx series d anchor) (lastWinIdx series d anchor)).map
      (fun idx => aggRow (sortObs series) d anchor idx r ncols))

deriving instance DecidableEq for Except

/-- Claim C2: for every argument list, `run_fileprepper` returns
`(True, stdout)` of the invoked process when it exits with status zero and
`(False, stderr)` when it exits with a nonzero status; the nonzero-exit
exception is caught, not propagated (the function is total on both
cases). -/
theorem run_fileprepper_status (env : Env) (command : List String) :
    ((env.exec ([FILEPREPPER_CLI] ++ command)).exitCode = 0 →
      run_fileprepper env command = (true, (env.exec ([FILEPREPPER_CLI] ++ command)).stdout)) ∧
    ((env.exec ([FILEPREPPER_CLI] ++ command)).exitCode ≠ 0 →
      run_fileprepper env command = (false, (env.exec ([FILEPREPPER_CLI] ++ command)).stderr)) := by
  constructor <;> intro h <;> simp only [List.singleton_append] at h <;>
    simp [run_fileprepper, h]

/-- Witness for C2, on both branches. -/
theorem run_fileprepper_status_witness :
    run_fileprepper envOk ["window"] = (true, "done") ∧
    run_fileprepper envFail ["window"] = (false, "boom") :=
  ⟨(run_fileprepper_status envOk ["window"]).1 (by decide),
   (run_fileprepper_status envFail ["window"]).2 (by decide)⟩

/-- Claim C10: if the CLI executable path or the input directory does not
exist at startup, the script exits with status 1 with an empty effect
trace: the output directory is never created and the CLI is never invoked,
so the filesystem is untouched on this error path. -/
theorem missing_prereq_exits_clean (env : Env)
    (h : env.pathExists FILEPREPPER_CLI = false ∨ env.pathExists INPUT_DIR = false) :
    main_script env = ([], .exits 1) ∧
    Effect.mkdirOutput ∉ (main_script env).1 ∧
    ∀ argv, Effect.execCLI argv ∉ (main_script env).1 := by
  have hmain : main_script env = ([], .exits 1) := by
    rcases h with h | h
    · simp [main_script, h]
    · by_cases hc : env.pathExists FILEPREPPER_CLI = false
      · simp [main_script, hc]
      · simp [main_script, hc, h]
  refine ⟨hmain, ?_, ?_⟩
  · rw [hmain]; simp
  · intro argv; rw [hmain]; simp

/-- Witness for C10. -/
theorem missing_prereq_exits_clean_witness :
    main_script envNothing = ([], .exits 1) ∧
    Effect.mkdirOutput ∉ (main_script envNothing).1 ∧
    ∀ argv, Effect.execCLI argv ∉ (main_script envNothing).1 :=
  missing_prereq_exits_clean envNothing (Or.inl rfl)

/-! Branch lemmas for the per-press loop body. -/

theorem processPress_skip (env : Env) (n : Nat)
    (h : env.pathExists (inputFile n) = false) :
    processPress env n = ([], .ok .skipped) := by
  simp [processPress, h]

theorem processPress_failed (env : Env) (n : Nat)
    (hex : env.pathExists (inputFile n) = true)
    (hko : (env.exec ([FILEPREPPER_CLI] ++ windowCommand n)).exitCode ≠ 0) :
    processPress env n =
      ([Effect.execCLI ([FILEPREPPER_CLI] ++ windowCommand n)],
       .ok (.failed (env.exec ([FILEPREPPER_CLI] ++ windowCommand n)).stderr)) := by
  simp only [List.singleton_append] at hko
  simp [processPress, run_fileprepper, hex, hko]

theorem processPress_success (env : Env) (n : Nat)
    (hex : env.pathExists (inputFile n) = true)
    (hok : (env.exec ([FILEPREPPER_CLI] ++ windowCommand n)).exitCode = 0)
    (hnz : countLines (env.fileLines (inputFile n)) ≠ 0) :
    processPress env n =
      ([Effect.execCLI ([FILEPREPPER_CLI] ++ windowCommand n)],
       .ok (.processed (countLines (env.fileLines (inputFile n)))
            (countLines (env.fileLines (outputFile n)))
            ((((countLines (env.fileLines (inputFile n)) : ℚ) -
               (countLines (env.fileLines (outputFile n)) : ℚ)) * 100) /
              (countLines (env.fileLines (inputFile n)) : ℚ)))) := by
  simp only [List.singleton_append] at hok
  have hq : (countLines (env.fileLines (inputFile n)) : ℚ) ≠ 0 := by
    exact_mod_cast hnz
  simp [processPress, run_fileprepper, pyTrueDiv, hex, hok, hq]

theorem processPress_divzero (env : Env) (n : Nat)
    (hex : env.pathExists (inputFile n) = true)
    (hok : (env.exec ([FILEPREPPER_CLI] ++ windowCommand n)).exitCode = 0)
    (h0 : countLines (env.fileLines (inputFile n)) = 0) :
    processPress env n =
      ([Effect.execCLI ([FILEPREPPER_CLI] ++ windowCommand n)],
       .error .zeroDivisionError) := by
  simp only [List.singleton_append] at hok
  simp [processPress, run_fileprepper, pyTrueDiv, hex, hok, h0]

theorem countLines_eq_length (lines : List String) : countLines lines = lines.length := by
  induction lines with
  | nil => rfl
  | cons x xs ih => simp [countLines] at ih ⊢; omega

/-- Claim C3: a failure on one dataset never aborts the batch. The presses
are 1 through 4; a press whose input file is missing contributes `skipped`
and the remaining presses are processed exactly as they would be alone,
and a press whose CLI invocation exits nonzero contributes
`failed stderr` (the error is reported) and the remaining presses are
likewise still processed. -/
theorem press_failure_is_local (env : Env) (n : Nat) (rest : List Nat) :
    pressNums = [1, 2, 3, 4] ∧
    (env.pathExists (inputFile n) = false →
      runPresses env (n :: rest) =
        ((runPresses env rest).1,
         (runPresses env rest).2.map (fun os => Outcome.skipped :: os))) ∧
    (env.pathExists (inputFile n) = true →
      (env.exec ([FILEPREPPER_CLI] ++ windowCommand n)).exitCode ≠ 0 →
      runPresses env (n :: rest) =
        (Effect.execCLI ([FILEPREPPER_CLI] ++ windowCommand n) :: (runPresses env rest).1,
         (runPresses env rest).2.map
           (fun os =>
             Outcome.failed (env.exec ([FILEPREPPER_CLI] ++ windowCommand n)).stderr :: os))) := by
  refine ⟨rfl, ?_, ?_⟩
  · intro h
    rcases hr : runPresses env rest with ⟨tr2, res2⟩
    cases res2 <;> simp [runPresses, processPress_skip env n h, hr, Except.map]
  · intro hex hko
    rcases hr : runPresses env rest with ⟨tr2, res2⟩
    cases res2 <;> simp [runPresses, processPress_failed env n hex hko, hr, Except.map]

/-- Witness for C3, on both branches. -/
theorem press_failure_is_local_witness :
    runPresses envNothing [1, 2] =
      ((runPresses envNothing [2]).1,
       (runPresses envNothing [2]).2.map (fun os => Outcome.skipped :: os)) ∧
    runPresses envFail [1, 2] =
      (Effect.execCLI ([FILEPREPPER_CLI] ++ windowCommand 1) :: (runPresses envFail [2]).1,
       (runPresses envFail [2]).2.map
         (fun os =>
           Outcome.failed (envFail.exec ([FILEPREPPER_CLI] ++ windowCommand 1)).stderr :: os)) :=
  ⟨(press_failure_is_local envNothing 1 [2]).2.1 rfl,
   (press_failure_is_local envFail 1 [2]).2.2 rfl (by decide)⟩

/-- Claim C4: for a press whose input file exists, the script invokes the
engine exactly once, and the argument list contains the input path, the
output path, the time column name "Time_s[s]", the value column name
"RMS[A]", the window token "5T" and the reducer name "mean". -/
theorem engine_invoked_once_with_args (env : Env) (n : Nat)
    (hex : env.pathExists (inputFile n) = true) :
    (processPress env n).1 = [Effect.execCLI ([FILEPREPPER_CLI] ++ windowCommand n)] ∧
    inputFile n ∈ windowCommand n ∧ outputFile n ∈ windowCommand n ∧
    "Time_s[s]" ∈ windowCommand n ∧ "RMS[A]" ∈ windowCommand n ∧
    "5T" ∈ windowCommand n ∧ "mean" ∈ windowCommand n := by
  refine ⟨?_, by simp [windowCommand], by simp [windowCommand], by simp [windowCommand],
    by simp [windowCommand], by simp [windowCommand], by simp [windowCommand]⟩
  by_cases hko : (env.exec ([FILEPREPPER_CLI] ++ windowCommand n)).exitCode = 0
  · by_cases hnz : countLines (env.fileLines (inputFile n)) = 0
    · simp [processPress_divzero env n hex hko hnz]
    · simp [processPress_success env n hex hko hnz]
  · simp [processPress_failed env n hex hko]

/-- Witness for C4. -/
theorem engine_invoked_once_with_args_witness :
    (processPress envOk 1).1 = [Effect.execCLI ([FILEPREPPER_CLI] ++ windowCommand 1)] ∧
    inputFile 1 ∈ windowCommand 1 ∧ outputFile 1 ∈ windowCommand 1 ∧
    "Time_s[s]" ∈ windowCommand 1 ∧ "RMS[A]" ∈ windowCommand 1 ∧
    "5T" ∈ windowCommand 1 ∧ "mean" ∈ windowCommand 1 :=
  engine_invoked_once_with_args envOk 1 rfl

/-- Claim C5: after a successful CLI invocation the reported reduction is
`((input_rows - output_rows) * 100) / input_rows` where the two row counts
are the line counts of the input and output files — nothing else enters
the computation. -/
theorem reduction_from_line_counts (env : Env) (n : Nat)
    (hex : env.pathExists (inputFile n) = true)
    (hok : (env.exec ([FILEPREPPER_CLI] ++ windowCommand n)).exitCode = 0)
    (hnz : countLines (env.fileLines (inputFile n)) ≠ 0) :
    processPress env n =
      ([Effect.execCLI ([FILEPREPPER_CLI] ++ windowCommand n)],
       .ok (.processed (countLines (env.fileLines (inputFile n)))
            (countLines (env.fileLines (outputFile n)))
            ((((countLines (env.fileLines (inputFile n)) : ℚ) -
               (countLines (env.fileLines (outputFile n)) : ℚ)) * 100) /
              (countLines (env.fileLines (inputFile n)) : ℚ)))) :=
  processPress_success env n hex hok hnz

/-- Witness for C5. -/
theorem reduction_from_line_counts_witness :
    processPress envOk 1 =
      ([Effect.execCLI ([FILEPREPPER_CLI] ++ windowCommand 1)],
       .ok (.processed (countLines (envOk.fileLines (inputFile 1)))
            (countLines (envOk.fileLines (outputFile 1)))
            ((((countLines (envOk.fileLines (inputFile 1)) : ℚ) -
               (countLines (envOk.fileLines (outputFile 1)) : ℚ)) * 100) /
              (countLines (envOk.fileLines (inputFile 1)) : ℚ)))) :=
  reduction_from_line_counts envOk 1 rfl rfl (by decide)

/-- Claim C6: the batch iterates over exactly the press numbers 1, 2, 3, 4
in ascending order, and derives the stated input and output file names for
each press. -/
theorem batch_iterates_presses_one_to_four :
    pressNums = [1, 2, 3, 4] ∧
    List.Chain' (· < ·) pressNums ∧
    (∀ env, preprocess_press_data env =
       (Effect.mkdirOutput :: (runPresses env [1, 2, 3, 4]).1,
        (runPresses env [1, 2, 3, 4]).2)) ∧
    (∀ n, inputFile n =
       INPUT_DIR ++ "/" ++ ("프레스 " ++ toString n ++ "호-유압모터 전류데이터.csv")) ∧
    (∀ n, outputFile n =
       OUTPUT_DIR ++ "/" ++ ("press" ++ toString n ++ "_5min.csv")) := by
  refine ⟨rfl, ?_, ?_, fun n => rfl, fun n => rfl⟩
  · show List.Chain' (· < ·) [1, 2, 3, 4]
    simp [List.chain'_cons]
  intro env
  show preprocess_press_data env = _
  rcases hr : runPresses env pressNums with ⟨tr, res⟩
  have hp : pressNums = [1, 2, 3, 4] := rfl
  rw [hp] at hr
  simp [preprocess_press_data, hp, hr]

/-- Claim C8: the reduction divides by the input file's line count with no
zero guard: when the CLI succeeds on an input file with zero lines the
loop body raises `ZeroDivisionError`; with a positive line count it
reports normally, so reporting is safe exactly under `input_rows > 0`. -/
theorem reporting_needs_nonzero_input (env : Env) (n : Nat)
    (hex : env.pathExists (inputFile n) = true)
    (hok : (env.exec ([FILEPREPPER_CLI] ++ windowCommand n)).exitCode = 0) :
    (countLines (env.fileLines (inputFile n)) = 0 →
      (processPress env n).2 = .error .zeroDivisionError) ∧
    (0 < countLines (env.fileLines (inputFile n)) →
      (processPress env n).2 =
        .ok (.processed (countLines (env.fileLines (inputFile n)))
             (countLines (env.fileLines (outputFile n)))
             ((((countLines (env.fileLines (inputFile n)) : ℚ) -
                (countLines (env.fileLines (outputFile n)) : ℚ)) * 100) /
               (countLines (env.fileLines (inputFile n)) : ℚ)))) := by
  constructor
  · intro h0
    simp [processPress_divzero env n hex hok h0]
  · intro hpos
    simp [processPress_success env n hex hok (Nat.pos_iff_ne_zero.mp hpos)]

/-- Witness for C8, on both branches. -/
theorem reporting_needs_nonzero_input_witness :
    (processPress envEmptyFiles 1).2 = .error .zeroDivisionError ∧
    (processPress envOk 1).2 =
      .ok (.processed (countLines (envOk.fileLines (inputFile 1)))
           (countLines (envOk.fileLines (outputFile 1)))
           ((((countLines (envOk.fileLines (inputFile 1)) : ℚ) -
              (countLines (envOk.fileLines (outputFile 1)) : ℚ)) * 100) /
             (countLines (envOk.fileLines (inputFile 1)) : ℚ))) :=
  ⟨(reporting_needs_nonzero_input envEmptyFiles 1 rfl rfl).1 rfl,
   (reporting_needs_nonzero_input envOk 1 rfl rfl).2 (by decide)⟩

/-- Claim C9: the row counts include the header line: when the input and
output files each consist of a header line followed by data rows, the
reported counts are data-row count plus one, and the reduction percentage
is computed over these total line counts. -/
theorem header_counted_in_rows (env : Env) (n : Nat) (ihdr ohdr : String)
    (idata odata : List String)
    (hex : env.pathExists (inputFile n) = true)
    (hok : (env.exec ([FILEPREPPER_CLI] ++ windowCommand n)).exitCode = 0)
    (hin : env.fileLines (inputFile n) = ihdr :: idata)
    (hout : env.fileLines (outputFile n) = ohdr :: odata) :
    countLines (env.fileLines (inputFile n)) = idata.length + 1 ∧
    countLines (env.fileLines (outputFile n)) = odata.length + 1 ∧
    (processPress env n).2 =
      .ok (.processed (idata.length + 1) (odata.length + 1)
           (((((idata.length : ℚ) + 1) - ((odata.length : ℚ) + 1)) * 100) /
             ((idata.length : ℚ) + 1))) := by
  have hci : countLines (env.fileLines (inputFile n)) = idata.length + 1 := by
    rw [hin, countLines_eq_length]; simp
  have hco : countLines (env.fileLines (outputFile n)) = odata.length + 1 := by
    rw [hout, countLines_eq_length]; simp
  refine ⟨hci, hco, ?_⟩
  have h := processPress_success env n hex hok (by omega)
  rw [h]
  simp [hci, hco]

/-- Witness for C9. -/
theorem header_counted_in_rows_witness :
    countLines (envOk.fileLines (inputFile 1)) = ["1", "2"].length + 1 ∧
    countLines (envOk.fileLines (outputFile 1)) = ["1", "2"].length + 1 ∧
    (processPress envOk 1).2 =
      .ok (.processed (["1", "2"].length + 1) (["1", "2"].length + 1)
           (((((["1", "2"].length : ℚ) + 1) - ((["1", "2"].length : ℚ) + 1)) * 100) /
             ((["1", "2"].length : ℚ) + 1))) :=
  header_counted_in_rows envOk 1 "h" "h" ["1", "2"] ["1", "2"] rfl rfl rfl rfl

/-! Ordering and permutation lemmas for the engine. -/

theorem sorted_first_le_last (l : List Int) (hs : l.Sorted (· ≤ ·)) (hne : l ≠ []) :
    l.head?.getD 0 ≤ l.getLast?.getD 0 := by
  induction l with
  | nil => cases hne rfl
  | cons x xs ih =>
    cases xs with
    | nil => simp
    | cons y ys =>
      have hxy : x ≤ y := (List.sorted_cons.mp hs).1 y (by simp)
      have h2 := ih hs.of_cons (by simp)
      rw [List.getLast?_cons_cons]
      simp only [List.head?_cons, Option.getD_some] at h2 ⊢
      exact le_trans hxy h2

theorem sortObs_sorted (series : List Observation) : List.Sorted tsLE (sortObs series) :=
  List.sorted_insertionSort tsLE series

theorem sortObs_perm (series : List Observation) : (sortObs series).Perm series :=
  List.perm_insertionSort tsLE series

theorem tsList_sorted (series : List Observation) :
    ((sortObs series).map Observation.ts).Sorted (· ≤ ·) :=
  List.Pairwise.map Observation.ts (fun _ _ h => h) (sortObs_sorted series)

theorem sortObs_ne_nil (series : List Observation) (hne : series ≠ []) :
    sortObs series ≠ [] := by
  have hlen := (sortObs_perm series).length_eq
  intro h
  rw [h] at hlen
  exact hne (List.length_eq_zero.mp hlen.symm)

theorem firstTs_le_lastTs (series : List Observation) (hne : series ≠ []) :
    firstTs series ≤ lastTs series := by
  apply sorted_first_le_last _ (tsList_sorted series)
  simpa using sortObs_ne_nil series hne

theorem windowIdx_mono (anchor d : Int) (hd : 0 < d) {a b : Int} (h : a ≤ b) :
    windowIdx anchor d a ≤ windowIdx anchor d b := by
  unfold windowIdx
  rw [Int.fdiv_eq_ediv _ hd.le, Int.fdiv_eq_ediv _ hd.le]
  exact Int.ediv_le_ediv hd (by omega)

theorem windowIdx_shift (anchor d t k : Int) (hd : 0 < d) :
    (t - (anchor + k * d)).fdiv d = windowIdx anchor d t - k := by
  unfold windowIdx
  have h1 : t - (anchor + k * d) = (t - anchor) + (-k) * d := by ring
  rw [h1, Int.fdiv_eq_ediv _ hd.le, Int.fdiv_eq_ediv _ hd.le,
    Int.add_mul_ediv_right _ _ (by omega : d ≠ 0)]
  ring

theorem windowIndices_length (lo hi : Int) :
    (windowIndices lo hi).length = (hi - lo + 1).toNat := by
  unfold windowIndices
  rw [List.length_map, List.length_range]

theorem windowIndices_getElem (lo hi : Int) (i : Nat)
    (h : i < (windowIndices lo hi).length) :
    (windowIndices lo hi)[i] = lo + (i : Int) := by
  unfold windowIndices at h ⊢
  rw [List.getElem_map, List.getElem_range]

/-- Claim C1: for every valid input (non-empty series, positive window
duration) and any anchor, `resample` emits exactly
`floor((last_ts - first_window_start) / duration) + 1` rows — one per
window index in the contiguous range from the first populated window to
the last, with no gaps and no duplicates (row `i` starts exactly at
`first_window_start + i * duration`), empty windows included. -/
theorem resample_window_count (series : List Observation) (d anchor : Int)
    (r : Reducer) (ncols : Nat) (hne : series ≠ []) (hd : 0 < d) :
    ∃ rows, resample series d anchor r ncols = .ok rows ∧
      rows.length = ((lastTs series - firstWindowStart series d anchor).fdiv d).toNat + 1 ∧
      ∀ i (hI : i < rows.length),
        (rows.get ⟨i, hI⟩).windowStart = firstWindowStart series d anchor + (i : Int) * d := by
  have hdle : ¬ d ≤ 0 := not_le.mpr hd
  have hni : series.isEmpty = false := by
    cases series with
    | nil => cases hne rfl
    | cons a l => rfl
  have hres : resample series d anchor r ncols =
      .ok ((windowIndices (firstWinIdx series d anchor) (lastWinIdx series d anchor)).map
        (fun idx => aggRow (sortObs series) d anchor idx r ncols)) := by
    simp [resample, hdle, hni]
  have hkey : (lastTs series - firstWindowStart series d anchor).fdiv d
      = lastWinIdx series d anchor - firstWinIdx series d anchor := by
    rw [firstWindowStart, windowIdx_shift anchor d (lastTs series) _ hd]; rfl
  have hle : firstWinIdx series d anchor ≤ lastWinIdx series d anchor :=
    windowIdx_mono anchor d hd (firstTs_le_lastTs series hne)
  refine ⟨_, hres, ?_, ?_⟩
  · rw [List.length_map, windowIndices_length, hkey]
    omega
  · intro i hI
    rw [List.get_eq_getElem, List.getElem_map, windowIndices_getElem]
    simp only [aggRow]
    rw [firstWindowStart]
    ring

/-- Witness for C1: observations at seconds 0 and 12, 5-second windows
anchored at 0, giving three rows (windows starting at 0, 5, 10). -/
theorem resample_window_count_witness :
    ([(⟨0, [some 2]⟩ : Observation), ⟨12, [some 4]⟩] ≠ []) ∧ (0 : Int) < 5 ∧
    (∃ rows, resample [(⟨0, [some 2]⟩ : Observation), ⟨12, [some 4]⟩] 5 0 .mean 1 = .ok rows ∧
      rows.length =
        ((lastTs [(⟨0, [some 2]⟩ : Observation), ⟨12, [some 4]⟩] -
          firstWindowStart [(⟨0, [some 2]⟩ : Observation), ⟨12, [some 4]⟩] 5 0).fdiv 5).toNat + 1 ∧
      ∀ i (hI : i < rows.length),
        (rows.get ⟨i, hI⟩).windowStart =
          firstWindowStart [(⟨0, [some 2]⟩ : Observation), ⟨12, [some 4]⟩] 5 0 + (i : Int) * 5) :=
  ⟨by decide, by decide,
   resample_window_count [⟨0, [some 2]⟩, ⟨12, [some 4]⟩] 5 0 .mean 1 (by decide) (by decide)⟩

theorem listMin_perm {l₁ l₂ : List ℚ} (h : l₁.Perm l₂) : listMin l₁ = listMin l₂ := by
  induction h with
  | nil => rfl
  | cons x _ ih => simp [listMin, ih]
  | swap x y l =>
    simp only [listMin]
    cases listMin l with
    | none => simp [min_comm]
    | some m => simp [min_left_comm]
  | trans _ _ ih1 ih2 => exact ih1.trans ih2

theorem listMax_perm {l₁ l₂ : List ℚ} (h : l₁.Perm l₂) : listMax l₁ = listMax l₂ := by
  induction h with
  | nil => rfl
  | cons x _ ih => simp [listMax, ih]
  | swap x y l =>
    simp only [listMax]
    cases listMax l with
    | none => simp [max_comm]
    | some m => simp [max_left_comm]
  | trans _ _ ih1 ih2 => exact ih1.trans ih2

theorem reduceVals_perm {l₁ l₂ : List ℚ} (h : l₁.Perm l₂) (r : Reducer)
    (h1 : r ≠ .first) (h2 : r ≠ .last) : reduceVals r l₁ = reduceVals r l₂ := by
  have hlen : l₁.length = l₂.length := h.length_eq
  have hsum : l₁.sum = l₂.sum := h.sum_eq
  have hemp : l₁.isEmpty = l₂.isEmpty := by
    cases l₁ <;> cases l₂ <;> simp_all
  cases r with
  | first => exact absurd rfl h1
  | last => exact absurd rfl h2
  | mean => simp [reduceVals, hlen, hsum, hemp]
  | sum => simp [reduceVals, hsum, hemp]
  | count => simp [reduceVals, hlen, hemp]
  | min => simp [reduceVals, listMin_perm h]
  | max => simp [reduceVals, listMax_perm h]

theorem tsList_eq_of_perm {s1 s2 : List Observation} (h : s1.Perm s2) :
    (sortObs s1).map Observation.ts = (sortObs s2).map Observation.ts := by
  have hp : (sortObs s1).Perm (sortObs s2) :=
    (sortObs_perm s1).trans (h.trans (sortObs_perm s2).symm)
  exact List.eq_of_perm_of_sorted (hp.map Observation.ts)
    (tsList_sorted s1) (tsList_sorted s2)

/-- Claim C7 as stated is false on the engine as specified: with the
`first` reducer and two observations sharing timestamp 0, the stable sort
preserves the input order of the tie, so swapping the two observations
changes the first reducer's pick — the two outputs differ. -/
theorem resample_not_order_invariant :
    ([⟨0, [some 1]⟩, ⟨0, [some 2]⟩] : List Observation).Perm
      [⟨0, [some 2]⟩, ⟨0, [some 1]⟩] ∧
    resample [⟨0, [some 1]⟩, ⟨0, [some 2]⟩] 5 0 .first 1 ≠
      resample [⟨0, [some 2]⟩, ⟨0, [some 1]⟩] 5 0 .first 1 := by
  constructor
  · exact List.Perm.swap _ _ _
  · decide

/-- Claim C7 (amended): for every input series, window specification and
anchor, and every order-insensitive reducer (`mean`, `sum`, `min`, `max`,
`count` — all but `first` and `last`), permuting the input observations
before resampling yields an identical output; for `first`/`last` this can
fail on duplicate timestamps, as the counterexample shows. -/
theorem resample_order_invariant (series series' : List Observation) (d anchor : Int)
    (r : Reducer) (ncols : Nat) (hperm : series.Perm series')
    (h1 : r ≠ .first) (h2 : r ≠ .last) :
    resample series d anchor r ncols = resample series' d anchor r ncols := by
  have hts := tsList_eq_of_perm hperm
  have hfi : firstTs series = firstTs series' := by unfold firstTs; rw [hts]
  have hla : lastTs series = lastTs series' := by unfold lastTs; rw [hts]
  have hemp : series.isEmpty = series'.isEmpty := by
    have := hperm.length_eq
    cases series <;> cases series' <;> simp_all
  have hp : (sortObs series).Perm (sortObs series') :=
    (sortObs_perm series).trans (hperm.trans (sortObs_perm series').symm)
  simp only [resample, hemp]
  unfold firstWinIdx lastWinIdx
  rw [hfi, hla]
  by_cases hdle : d ≤ 0
  · simp [hdle]
  · simp only [if_neg hdle]
    by_cases he : series'.isEmpty
    · simp [he]
    · simp only [he, if_false, Bool.false_eq_true]
      congr 1
      apply List.map_congr_left
      intro idx _
      unfold aggRow
      congr 1
      apply List.map_congr_left
      intro c _
      exact reduceVals_perm (List.Perm.filterMap _ (List.Perm.filter _ hp)) r h1 h2

/-- Witness for the amended C7: swapping two equal-timestamp observations
leaves the `mean` output unchanged. -/
theorem resample_order_invariant_witness :
    resample [⟨0, [some 1]⟩, ⟨0, [some 2]⟩] 5 0 .mean 1 =
      resample [⟨0, [some 2]⟩, ⟨0, [some 1]⟩] 5 0 .mean 1 :=
  resample_order_invariant _ _ 5 0 .mean 1 (List.Perm.swap _ _ _)
    (by decide) (by decide)
